import Mathlib

/-!
Verification development for the LXC dev-container manager:
a shallow embedding of `src/subagents/devcontainer-manager.py` and
`src/web/app.py` (Flask/SocketIO dashboard), with theorems settling the
behavioural claims about listing, monitoring, backup, the CLI entry point
and the live-update socket handlers.

External shell commands are modelled by an environment `Env` mapping each
command string to the outcome the operating system produces for it
(normal completion with exit code, stdout, stderr; a timeout; or a raised
exception).  All Python string manipulation used by the code
(`str.strip`, `str.split`, `str.split(sep)`) is embedded by executable
Lean functions with the same semantics.
-/

namespace LxcDev

/-! ### Python string primitives -/

/-- Whitespace set used by Python `str.strip()` and `str.split()`. -/
def isPySpace (c : Char) : Bool :=
  c = ' ' || c = '\t' || c = '\n' || c = '\r' || c = '\x0b' || c = '\x0c'

/-- Helper for `pySplitWs`: splits a character list on whitespace runs,
discarding empty fields, accumulating the current field reversed. -/
def splitWsAux : List Char → List Char → List String
  | [], acc => if acc.isEmpty then [] else [String.mk acc.reverse]
  | c :: rest, acc =>
    if isPySpace c then
      if acc.isEmpty then splitWsAux rest []
      else String.mk acc.reverse :: splitWsAux rest []
    else splitWsAux rest (c :: acc)

/-- Python `s.split()` (no separator): split on whitespace runs, no empty
fields. -/
def pySplitWs (s : String) : List String :=
  splitWsAux s.toList []

/-- Python `s.strip()`: remove leading and trailing whitespace. -/
def pyStrip (s : String) : String :=
  String.mk (((s.toList.dropWhile isPySpace).reverse.dropWhile isPySpace).reverse)

/-- Helper for splitting on a single separator character, keeping empty
fields, exactly like Python `s.split(sep)`. -/
def splitOnCharAux (sep : Char) : List Char → List Char → List String
  | [], acc => [String.mk acc.reverse]
  | c :: rest, acc =>
    if c = sep then String.mk acc.reverse :: splitOnCharAux sep rest []
    else splitOnCharAux sep rest (c :: acc)

/-- Python `s.split(chr(10))`: newline split keeping empty fields
(`""` gives `[""]`). -/
def pySplitLines (s : String) : List String :=
  splitOnCharAux '\n' s.toList []

/-- Python `s.split(",")` as used for the provider list argument. -/
def pySplitComma (s : String) : List String :=
  splitOnCharAux ',' s.toList []

/-- Python `" ".join(xs)` as used for package lists. -/
def joinSpace (xs : List String) : String :=
  String.intercalate " " xs

/-- Python `re.match("^" ++ "\x5cd+", line)` viewed as a Boolean: the line
starts with a digit. -/
def startsWithDigit (s : String) : Bool :=
  match s.toList with
  | [] => false
  | c :: _ => c.isDigit

/-! ### Python values (the JSON payloads the program builds) -/

/-- A Python/JSON value as produced by the manager and the web layer. -/
inductive PyVal where
  | none
  | bool (b : Bool)
  | int (n : Int)
  | str (s : String)
  | list (xs : List PyVal)
  | dict (xs : List (String × PyVal))
deriving Repr

/-- Python truthiness of a value (`if v:`). -/
def pyTruthy : PyVal → Bool
  | PyVal.none => false
  | PyVal.bool b => b
  | PyVal.int n => n != 0
  | PyVal.str s => s != ""
  | PyVal.list xs => !xs.isEmpty
  | PyVal.dict xs => !xs.isEmpty

/-- Key lookup in a dict value; `Option.none` when the value is not a dict
or the key is absent (used to state properties about payload fields). -/
def pyLookup (v : PyVal) (k : String) : Option PyVal :=
  match v with
  | PyVal.dict xs => xs.lookup k
  | _ => Option.none

/-- Python `v.get(k)`: defined only on dict objects, where a missing key
yields `None`; on any other object attribute access raises
`AttributeError`. -/
def dict_get (v : PyVal) (k : String) : Except String PyVal :=
  match v with
  | PyVal.dict xs => Except.ok ((xs.lookup k).getD PyVal.none)
  | _ => Except.error "AttributeError"

/-! ### Process execution model and run_command -/

/-- Outcome of `subprocess.run(command, shell=True, capture_output=True,
timeout=30)`: normal completion, `TimeoutExpired`, or any other raised
exception (carrying `str(e)`). -/
inductive ExecOutcome where
  | completed (returncode : Int) (stdout : String) (stderr : String)
  | timedOut
  | raised (msg : String)
deriving Repr, DecidableEq

/-- Outcome of `subprocess.Popen(command, shell=True)` followed by
`process.wait()`: the awaited exit code, or a raised exception.  No
timeout is passed on this path, so `TimeoutExpired` cannot occur. -/
inductive SpawnOutcome where
  | waited (returncode : Int)
  | raisedS (msg : String)
deriving Repr, DecidableEq

/-- The `timeout=30` argument `run_command` passes to `subprocess.run`
(devcontainer-manager.py line 40). -/
def run_command_timeout : Nat := 30

/-- Embeds the captured branch of `run_command` (lines 34-42 and the
`except` clauses, lines 46-49): a completed process yields its triple, a
timeout yields `(-1, "", "Command timed out")`, any other exception
yields `(-1, "", str(e))`. -/
def run_command_capture : ExecOutcome → Int × String × String
  | ExecOutcome.completed c out err => (c, out, err)
  | ExecOutcome.timedOut => (-1, "", "Command timed out")
  | ExecOutcome.raised m => (-1, "", m)

/-- Embeds the uncaptured branch of `run_command` (lines 43-45): the
awaited exit code with empty stdout/stderr, or `(-1, "", str(e))` when
spawning raises. -/
def run_command_no_capture : SpawnOutcome → Int × String × String
  | SpawnOutcome.waited c => (c, "", "")
  | SpawnOutcome.raisedS m => (-1, "", m)

/-- The execution environment: what the operating system does for each
shell command the manager issues, plus the `time.strftime` timestamp used
by `backup_container`.  Commands are keyed by their full command
string. -/
structure Env where
  exec : String → ExecOutcome
  spawn : String → SpawnOutcome
  timestamp : String

/-- Embeds `run_command(command, capture_output)` over an environment. -/
def run_command (env : Env) (command : String) (capture : Bool) : Int × String × String :=
  if capture then run_command_capture (env.exec command)
  else run_command_no_capture (env.spawn command)

/-- `run_command` with the default `capture_output=True`. -/
def run_command_env (env : Env) (command : String) : Int × String × String :=
  run_command_capture (env.exec command)

/-! ### The manager data model and command strings -/

/-- `self.template_id` (devcontainer-manager.py line 29). -/
def template_id : String := "9000"

/-- A container record as built by `list_containers` (lines 77-82). -/
structure Record where
  vmid : String
  name : String
  status : String
  ip : String
deriving Repr, DecidableEq

/-- The dict `list_containers` appends for one container (lines 77-82). -/
def record_to_pyval (r : Record) : PyVal :=
  PyVal.dict [("vmid", PyVal.str r.vmid), ("name", PyVal.str r.name),
    ("status", PyVal.str r.status), ("ip", PyVal.str r.ip)]

/-- The JSON array `list_containers` produces. -/
def records_to_pyval (rs : List Record) : PyVal :=
  PyVal.list (rs.map record_to_pyval)

/-- The IP lookup pipeline (lines 73, 116, 160): `pct exec` into the guest
followed by grep/awk/cut extraction of the eth0 inet address. -/
def ip_cmd (vmid : String) : String :=
  "pct exec " ++ vmid ++
    " -- ip addr show eth0 2>/dev/null | grep \x27inet \x27 | awk \x27\x7bprint $2\x7d\x27 | cut -d/ -f1"

/-- `pct status` command (lines 154, 248). -/
def status_cmd (vmid : String) : String := "pct status " ++ vmid

/-- `pct config` command (line 165). -/
def config_cmd (vmid : String) : String := "pct config " ++ vmid

/-- VMID availability probe used by `create_container` (line 92). -/
def check_cmd (i : Nat) : String :=
  "pct list | grep -q \x27^" ++ toString i ++ "\x27"

/-- `pct clone` command (line 101). -/
def clone_cmd (vmid projectName : String) : String :=
  "pct clone " ++ template_id ++ " " ++ vmid ++ " --hostname " ++ projectName

/-- `pct start` command (line 108). -/
def start_cmd (vmid : String) : String := "pct start " ++ vmid

/-- OpenCode provider login command (line 136). -/
def auth_cmd (vmid provider : String) : String :=
  "pct exec " ++ vmid ++ " -- su - developer -c \x27opencode auth login --provider " ++
    provider ++ "\x27"

/-- OpenCode version probe (line 142). -/
def opencode_test_cmd (vmid : String) : String :=
  "pct exec " ++ vmid ++ " -- su - developer -c \x27opencode --version\x27"

/-- Package install command of `setup_project_template` (line 219). -/
def apt_install_cmd (vmid pkgs : String) : String :=
  "pct exec " ++ vmid ++ " -- apt install -y " ++ pkgs

/-- Global npm install command (line 227). -/
def npm_install_cmd (vmid pkg : String) : String :=
  "pct exec " ++ vmid ++ " -- su - developer -c \x27npm install -g " ++ pkg ++ "\x27"

/-- pip install command (line 235). -/
def pip_install_cmd (vmid pkgs : String) : String :=
  "pct exec " ++ vmid ++ " -- su - developer -c \x27pip install " ++ pkgs ++ "\x27"

/-- Memory probe of `get_container_info` (line 171). -/
def info_mem_cmd (vmid : String) : String :=
  "pct exec " ++ vmid ++ " -- free -h | grep \x27^Mem:\x27 | awk \x27\x7bprint \\$3 \"/\" \\$2\x7d\x27"

/-- Disk probe of `get_container_info` (line 175). -/
def info_disk_cmd (vmid : String) : String :=
  "pct exec " ++ vmid ++
    " -- df -h / | tail -1 | awk \x27\x7bprint \\$3 \"/\" \\$2 \" (\" \\$5 \" used)\"\x7d\x27"

/-- CPU/memory probe of `monitor_resources` (line 256). -/
def top_cmd (vmid : String) : String :=
  "pct exec " ++ vmid ++ " -- top -bn1 | head -5"

/-- Memory probe of `monitor_resources` (line 260). -/
def monitor_mem_cmd (vmid : String) : String :=
  "pct exec " ++ vmid ++ " -- free -h"

/-- Disk probe of `monitor_resources` (line 264). -/
def monitor_disk_cmd (vmid : String) : String :=
  "pct exec " ++ vmid ++ " -- df -h"

/-- `vzdump` backup command (line 279). -/
def backup_cmd (vmid : String) : String :=
  "vzdump " ++ vmid ++ " --compress zstd --storage local-lvm --mode snapshot"

/-! ### list_containers -/

/-- The IP field computation shared by `list_containers` (lines 71-75) and
`get_container_info` (lines 158-162): the lookup command runs only when
the status is "running", otherwise the address stays empty. -/
def container_ip (env : Env) (status vmid : String) : String :=
  if status = "running" then pyStrip (run_command_env env (ip_cmd vmid)).2.1
  else ""

/-- Per-line parsing of `list_containers` (lines 58-82): a line counts
only when it starts with a digit and splits into at least three
whitespace fields (vmid, status, name); the template VMID is skipped; the
IP is looked up only for running containers. -/
def parse_list_line (env : Env) (line : String) : Option Record :=
  if startsWithDigit line then
    if (pySplitWs line).length ≥ 3 then
      if (pySplitWs line).getD 0 "" = template_id then Option.none
      else
        Option.some
          { vmid := (pySplitWs line).getD 0 ""
            name := if (pySplitWs line).length > 2 then (pySplitWs line).getD 2 "" else ""
            status := (pySplitWs line).getD 1 ""
            ip := container_ip env ((pySplitWs line).getD 1 "") ((pySplitWs line).getD 0 "") }
    else Option.none
  else Option.none

/-- Embeds `list_containers` (lines 51-84): run `pct list`; on a non-zero
exit code return the empty list; otherwise parse each line of the
stripped stdout.  The environment is a pure function, so the single
source-level call to `run_command` is referenced twice without changing
meaning. -/
def list_containers (env : Env) : List Record :=
  if (run_command_env env "pct list").1 ≠ 0 then []
  else (pySplitLines (pyStrip (run_command_env env "pct list").2.1)).filterMap (parse_list_line env)

/-! ### create_container -/

/-- VMID generation loop of `create_container` (lines 90-95): the first
`i` in `range(1001, 9999)` whose grep probe exits non-zero. -/
def find_free_vmid (env : Env) : Option String :=
  ((List.range' 1001 8998).find? (fun i => (run_command_env env (check_cmd i)).1 ≠ 0)).map toString

/-- Embeds `create_container` (lines 86-129).  `vmid0` is the optional
caller-supplied VMID; Python tests it with `if not vmid`, so an empty
string also triggers generation.  The `template_type` parameter is
accepted and unused, as in the source; `time.sleep(10)` has no observable
effect in this model. -/
def create_container (env : Env) (projectName : String) (vmid0 : Option String)
    (templateType : String) : PyVal :=
  let _ := templateType
  let vmidGen : Option String :=
    match vmid0 with
    | Option.none => find_free_vmid env
    | Option.some v => if v = "" then find_free_vmid env else Option.some v
  match vmidGen with
  | Option.none =>
    PyVal.dict [("success", PyVal.bool false), ("error", PyVal.str "No available VMID found")]
  | Option.some vmid =>
    if (run_command_env env (clone_cmd vmid projectName)).1 ≠ 0 then
      PyVal.dict [("success", PyVal.bool false),
        ("error", PyVal.str (run_command_env env (clone_cmd vmid projectName)).2.2)]
    else if (run_command_env env (start_cmd vmid)).1 ≠ 0 then
      PyVal.dict [("success", PyVal.bool false),
        ("error", PyVal.str (run_command_env env (start_cmd vmid)).2.2)]
    else
      let ipStripped := pyStrip (run_command_env env (ip_cmd vmid)).2.1
      let ip := if ipStripped = "" then "pending" else ipStripped
      PyVal.dict [("success", PyVal.bool true), ("vmid", PyVal.str vmid),
        ("project_name", PyVal.str projectName), ("ip", PyVal.str ip),
        ("access_methods", PyVal.list
          [PyVal.str ("pct enter " ++ vmid),
           PyVal.str (if ip ≠ "pending" then "ssh developer@" ++ ip
                      else "ssh developer@<ip>")])]

/-! ### configure_opencode -/

/-- Provider loop of `configure_opencode` (lines 134-139): the first
provider whose auth command exits non-zero aborts with an error dict. -/
def auth_loop (env : Env) (vmid : String) : List String → Option PyVal
  | [] => Option.none
  | p :: rest =>
    if (run_command_env env (auth_cmd vmid p)).1 ≠ 0 then
      Option.some (PyVal.dict [("success", PyVal.bool false),
        ("error", PyVal.str ("Failed to configure " ++ p ++ ": " ++
          (run_command_env env (auth_cmd vmid p)).2.2))])
    else auth_loop env vmid rest

/-- Embeds `configure_opencode` (lines 131-149).  `if providers:` is
false both for `None` and for an empty list. -/
def configure_opencode (env : Env) (vmid : String) (providers : Option (List String)) : PyVal :=
  let failed : Option PyVal :=
    match providers with
    | Option.none => Option.none
    | Option.some ps => if ps.isEmpty then Option.none else auth_loop env vmid ps
  match failed with
  | Option.some e => e
  | Option.none =>
    PyVal.dict [("success", PyVal.bool ((run_command_env env (opencode_test_cmd vmid)).1 = 0)),
      ("version", PyVal.str (pyStrip (run_command_env env (opencode_test_cmd vmid)).2.1)),
      ("error", if (run_command_env env (opencode_test_cmd vmid)).1 ≠ 0 then
                  PyVal.str (run_command_env env (opencode_test_cmd vmid)).2.2
                else PyVal.none)]

/-! ### get_container_info and monitor_resources -/

/-- Embeds the status extraction
`status_out.strip().split(chr(10))[0].split()[-1] if status_out else "unknown"`
(lines 156 and 250).  The final `[-1]` raises `IndexError` when the first
line has no words; the exception message is carried in the error
branch. -/
def parse_status (statusOut : String) : Except String String :=
  if statusOut = "" then Except.ok "unknown"
  else
    match (pySplitWs ((pySplitLines (pyStrip statusOut)).getD 0 "")).getLast? with
    | Option.some w => Except.ok w
    | Option.none => Except.error "list index out of range"

/-- The `resources` dict of `get_container_info` (lines 169-177): probed
only for running containers, with "N/A" fallbacks for empty output. -/
def info_resources (env : Env) (status vmid : String) : PyVal :=
  if status = "running" then
    PyVal.dict
      [("memory", PyVal.str (if (run_command_env env (info_mem_cmd vmid)).2.1 ≠ "" then
          pyStrip (run_command_env env (info_mem_cmd vmid)).2.1 else "N/A")),
       ("disk", PyVal.str (if (run_command_env env (info_disk_cmd vmid)).2.1 ≠ "" then
          pyStrip (run_command_env env (info_disk_cmd vmid)).2.1 else "N/A"))]
  else PyVal.dict []

/-- Embeds `get_container_info` (lines 151-185).  An `IndexError` from
the status parse propagates as the error branch (caught by `main`). -/
def get_container_info (env : Env) (vmid : String) : Except String PyVal :=
  match parse_status (run_command_env env (status_cmd vmid)).2.1 with
  | Except.error m => Except.error m
  | Except.ok status =>
    Except.ok (PyVal.dict
      [("vmid", PyVal.str vmid),
       ("status", PyVal.str status),
       ("ip", PyVal.str (container_ip env status vmid)),
       ("config", PyVal.str (if (run_command_env env (config_cmd vmid)).2.1 ≠ "" then
          pyStrip (run_command_env env (config_cmd vmid)).2.1 else "")),
       ("resources", info_resources env status vmid)])

/-- Embeds `monitor_resources` (lines 246-272): a container whose parsed
status is not "running" yields `{status, message}` with the actual status
string; a running one yields the resource report. -/
def monitor_resources (env : Env) (vmid : String) : Except String PyVal :=
  match parse_status (run_command_env env (status_cmd vmid)).2.1 with
  | Except.error m => Except.error m
  | Except.ok status =>
    if status ≠ "running" then
      Except.ok (PyVal.dict [("status", PyVal.str status),
        ("message", PyVal.str "Container not running")])
    else
      Except.ok (PyVal.dict
        [("status", PyVal.str status),
         ("cpu_usage", PyVal.str (if (run_command_env env (top_cmd vmid)).2.1 ≠ "" then
            pyStrip (run_command_env env (top_cmd vmid)).2.1 else "N/A")),
         ("memory_info", PyVal.str (if (run_command_env env (monitor_mem_cmd vmid)).2.1 ≠ "" then
            pyStrip (run_command_env env (monitor_mem_cmd vmid)).2.1 else "N/A")),
         ("disk_info", PyVal.str (if (run_command_env env (monitor_disk_cmd vmid)).2.1 ≠ "" then
            pyStrip (run_command_env env (monitor_disk_cmd vmid)).2.1 else "N/A"))])

/-! ### setup_project_template -/

/-- The `template_configs` literal (lines 189-212), kept as JSON-shaped
values so that `"packages" in config` is a key lookup. -/
def template_configs : List (String × PyVal) :=
  [("web", PyVal.dict
      [("packages", PyVal.list [PyVal.str "chromium", PyVal.str "lighttpd"]),
       ("npm_packages", PyVal.list [PyVal.str "postman-cli"]),
       ("ports", PyVal.list [PyVal.int 3000, PyVal.int 5173, PyVal.int 4173])]),
   ("api", PyVal.dict
      [("packages", PyVal.list [PyVal.str "postgresql-client", PyVal.str "redis-tools"]),
       ("npm_packages", PyVal.list [PyVal.str "nodemon", PyVal.str "typescript"]),
       ("services", PyVal.list [PyVal.str "postgres", PyVal.str "redis"]),
       ("ports", PyVal.list [PyVal.int 3000, PyVal.int 8080, PyVal.int 9229])]),
   ("ml", PyVal.dict
      [("packages", PyVal.list [PyVal.str "python3-torch", PyVal.str "python3-jupyter"]),
       ("python_packages", PyVal.list
          [PyVal.str "scikit-learn", PyVal.str "pandas", PyVal.str "matplotlib"]),
       ("ports", PyVal.list [PyVal.int 8888]),
       ("setup_script", PyVal.str "jupyter_setup.sh")]),
   ("devops", PyVal.dict
      [("packages", PyVal.list [PyVal.str "terraform", PyVal.str "ansible", PyVal.str "kubectl"]),
       ("services", PyVal.list [PyVal.str "docker-registry"]),
       ("ports", PyVal.list [PyVal.int 6443, PyVal.int 8080])])]

/-- Key membership/access on a config dict (`"packages" in config` and
`config["packages"]`). -/
def cfg_get (config : PyVal) (k : String) : Option PyVal :=
  match config with
  | PyVal.dict xs => xs.lookup k
  | _ => Option.none

/-- Extracts the string elements of a config list value; the template
configs only hold strings under the package keys. -/
def as_str_list : PyVal → List String
  | PyVal.list xs => xs.filterMap (fun v => match v with
      | PyVal.str s => Option.some s
      | _ => Option.none)
  | _ => []

/-- npm install loop of `setup_project_template` (lines 225-230). -/
def npm_loop (env : Env) (vmid : String) : List String → Option PyVal
  | [] => Option.none
  | pkg :: rest =>
    if (run_command_env env (npm_install_cmd vmid pkg)).1 ≠ 0 then
      Option.some (PyVal.dict [("success", PyVal.bool false),
        ("error", PyVal.str ("NPM install failed: " ++
          (run_command_env env (npm_install_cmd vmid pkg)).2.2))])
    else npm_loop env vmid rest

/-- Embeds `setup_project_template` (lines 187-244). -/
def setup_project_template (env : Env) (vmid templateType : String) : PyVal :=
  let config := (template_configs.lookup templateType).getD (PyVal.dict [])
  let r1 : Option PyVal :=
    match cfg_get config "packages" with
    | Option.some pv =>
      if (run_command_env env (apt_install_cmd vmid (joinSpace (as_str_list pv)))).1 ≠ 0 then
        Option.some (PyVal.dict [("success", PyVal.bool false),
          ("error", PyVal.str ("Package install failed: " ++
            (run_command_env env (apt_install_cmd vmid (joinSpace (as_str_list pv)))).2.2))])
      else Option.none
    | Option.none => Option.none
  match r1 with
  | Option.some e => e
  | Option.none =>
    let npmPkgs := match cfg_get config "npm_packages" with
      | Option.some pv => as_str_list pv
      | Option.none => []
    match npm_loop env vmid npmPkgs with
    | Option.some e => e
    | Option.none =>
      let r3 : Option PyVal :=
        match cfg_get config "python_packages" with
        | Option.some pv =>
          if (run_command_env env (pip_install_cmd vmid (joinSpace (as_str_list pv)))).1 ≠ 0 then
            Option.some (PyVal.dict [("success", PyVal.bool false),
              ("error", PyVal.str ("Pip install failed: " ++
                (run_command_env env (pip_install_cmd vmid (joinSpace (as_str_list pv)))).2.2))])
          else Option.none
        | Option.none => Option.none
      match r3 with
      | Option.some e => e
      | Option.none =>
        PyVal.dict [("success", PyVal.bool true), ("template", PyVal.str templateType),
          ("installed", config)]

/-! ### backup_container -/

/-- Embeds `backup_container` (lines 274-287): the `vzdump` command runs
with `capture_output=False`, so stderr is never captured; the error field
is `None` on exit code 0 and otherwise the (always empty) captured
stderr, except when spawning raised. -/
def backup_container (env : Env) (vmid : String) : PyVal :=
  PyVal.dict
    [("success", PyVal.bool ((run_command env (backup_cmd vmid) false).1 = 0)),
     ("backup_name", PyVal.str ("lxc-" ++ vmid ++ "-" ++ env.timestamp)),
     ("error", if (run_command env (backup_cmd vmid) false).1 ≠ 0 then
        PyVal.str (run_command env (backup_cmd vmid) false).2.2 else PyVal.none),
     ("location", PyVal.str "/var/lib/vz/dump/")]

/-! ### main -/

/-- The usage payload printed before `sys.exit(1)` (lines 292-294). -/
def usage_payload : PyVal :=
  PyVal.dict [("error",
    PyVal.str "Usage: python3 devcontainer-manager.py <action> [options]")]

/-- The action dispatch of `main` (lines 300-355), producing the JSON
value that is printed.  A raised `IndexError` from info/monitor is caught
by the surrounding `except Exception` and becomes `{"error": str(e)}`. -/
def dispatch (env : Env) (argv : List String) (action : String) : PyVal :=
  if action = "list" then records_to_pyval (list_containers env)
  else if action = "create" then
    if argv.length < 3 then
      PyVal.dict [("error", PyVal.str "Usage: create <project_name> [vmid] [template_type]")]
    else create_container env (argv.getD 2 "") (argv.get? 3) (argv.getD 4 "default")
  else if action = "info" then
    if argv.length < 3 then
      PyVal.dict [("error", PyVal.str "Usage: info <vmid>")]
    else
      match get_container_info env (argv.getD 2 "") with
      | Except.ok v => v
      | Except.error m => PyVal.dict [("error", PyVal.str m)]
  else if action = "configure-opencode" then
    if argv.length < 3 then
      PyVal.dict [("error",
        PyVal.str "Usage: configure-opencode <vmid> [provider1,provider2,...]")]
    else configure_opencode env (argv.getD 2 "") ((argv.get? 3).map pySplitComma)
  else if action = "setup-template" then
    if argv.length < 4 then
      PyVal.dict [("error", PyVal.str "Usage: setup-template <vmid> <template_type>")]
    else setup_project_template env (argv.getD 2 "") (argv.getD 3 "")
  else if action = "monitor" then
    if argv.length < 3 then
      PyVal.dict [("error", PyVal.str "Usage: monitor <vmid>")]
    else
      match monitor_resources env (argv.getD 2 "") with
      | Except.ok v => v
      | Except.error m => PyVal.dict [("error", PyVal.str m)]
  else if action = "backup" then
    if argv.length < 3 then
      PyVal.dict [("error", PyVal.str "Usage: backup <vmid>")]
    else backup_container env (argv.getD 2 "")
  else
    PyVal.dict [("error", PyVal.str ("Unknown action: " ++ action)),
      ("available_actions", PyVal.list
        [PyVal.str "list", PyVal.str "create", PyVal.str "info",
         PyVal.str "configure-opencode", PyVal.str "setup-template",
         PyVal.str "monitor", PyVal.str "backup"])]

/-- Embeds `main` (lines 289-357) as exit code paired with the printed
JSON value: fewer than two argv entries prints the usage payload and
exits 1; otherwise the dispatched result is printed and the process ends
normally with exit code 0, whatever the result was. -/
def main (env : Env) (argv : List String) : Int × PyVal :=
  if argv.length < 2 then (1, usage_payload)
  else (0, dispatch env argv (argv.getD 1 ""))

/-! ### The web layer (src/web/app.py) -/

/-- Outcome of `subprocess.run(cmd, capture_output=True, text=True,
timeout=30)` in `run_agent_command`: completion, or any raised exception
(`TimeoutExpired` included, since app.py has a single `except Exception`
clause). -/
inductive ProcResult where
  | completed (returncode : Int) (stdout : String) (stderr : String)
  | raised (msg : String)
deriving Repr, DecidableEq

/-- The `timeout=30` argument `run_agent_command` passes to
`subprocess.run` (app.py line 23). -/
def run_agent_command_timeout : Nat := 30

/-- Embeds `run_agent_command` (app.py lines 19-29), parameterised by the
JSON parser applied to the manager stdout: exit code 0 returns the parsed
stdout (a parse failure is caught by the same `except` and becomes the
error dict); a non-zero exit code returns `{"success": False, "error":
stderr}`; a raised exception returns `{"success": False, "error":
str(e)}`. -/
def run_agent_command (parseJson : String → Except String PyVal) (r : ProcResult) : PyVal :=
  match r with
  | ProcResult.completed c out err =>
    if c = 0 then
      match parseJson out with
      | Except.ok v => v
      | Except.error m => PyVal.dict [("success", PyVal.bool false), ("error", PyVal.str m)]
    else PyVal.dict [("success", PyVal.bool false), ("error", PyVal.str err)]
  | ProcResult.raised m =>
    PyVal.dict [("success", PyVal.bool false), ("error", PyVal.str m)]

/-- Embeds the `/api/containers` endpoint `get_containers` (app.py lines
36-42): it returns `run_agent_command(["list"])` verbatim (jsonify keeps
the value unchanged; the handler body raises nothing further). -/
def get_containers (parseJson : String → Except String PyVal) (r : ProcResult) : PyVal :=
  run_agent_command parseJson r

/-- A SocketIO event emitted to the requesting connection. -/
inductive Event where
  | containers_update (payload : PyVal)
  | notification (message : String) (ty : String)
  | error_event (message : String) (ty : Option String)
deriving Repr

/-- Embeds `handle_connect` (app.py lines 103-113) as the events emitted
to the new client, given the payload `run_agent_command(["list"])`
produced: `containers.get("containers")` is emitted when truthy; a raised
`AttributeError` (payload not a dict) is only printed, so nothing is
emitted. -/
def handle_connect (payload : PyVal) : List Event :=
  match dict_get payload "containers" with
  | Except.error _ => []
  | Except.ok c => if pyTruthy c then [Event.containers_update c] else []

/-- Embeds `handle_request_containers` (app.py lines 120-128): like
`handle_connect`, but a raised exception emits an `error` event. -/
def handle_request_containers (payload : PyVal) : List Event :=
  match dict_get payload "containers" with
  | Except.error m => [Event.error_event m Option.none]
  | Except.ok c => if pyTruthy c then [Event.containers_update c] else []

/-- Embeds `handle_refresh_containers` (app.py lines 130-139): a truthy
`containers` field emits the update followed by a success notification; a
raised exception emits an `error` event with type "error"; otherwise
nothing is emitted. -/
def handle_refresh_containers (payload : PyVal) : List Event :=
  match dict_get payload "containers" with
  | Except.error m => [Event.error_event m (Option.some "error")]
  | Except.ok c =>
    if pyTruthy c then
      [Event.containers_update c,
       Event.notification "Container list refreshed" "success"]
    else []

/-! ### Concrete environments used by the claim theorems -/

/-- Environment with one running container 101 listed by `pct list`. -/
def env_c1 : Env :=
  { exec := fun c =>
      if c = "pct list" then
        ExecOutcome.completed 0
          "VMID       Status     Lock         Name\n101        running                 web-app" ""
      else if c = ip_cmd "101" then ExecOutcome.completed 0 "192.168.10.75\n" ""
      else ExecOutcome.completed 1 "" ""
    spawn := fun _ => SpawnOutcome.waited 0
    timestamp := "20240101-000000" }

/-- Environment whose spawned (uncaptured) processes are awaited to exit
code 7. -/
def env_c3 : Env :=
  { exec := fun _ => ExecOutcome.completed 0 "" ""
    spawn := fun _ => SpawnOutcome.waited 7
    timestamp := "20240101-000000" }

/-- Environment whose `pct list` output holds a partial record (vmid and
status but no name column). -/
def env_c4 : Env :=
  { exec := fun c =>
      if c = "pct list" then ExecOutcome.completed 0 "101 running" ""
      else ExecOutcome.completed 1 "" ""
    spawn := fun _ => SpawnOutcome.waited 0
    timestamp := "20240101-000000" }

/-- Environment whose `pct list` invocation fails with a non-zero exit
code. -/
def env_c4f : Env :=
  { exec := fun _ => ExecOutcome.completed 1 "" "pct: not found"
    spawn := fun _ => SpawnOutcome.waited 0
    timestamp := "20240101-000000" }

/-- Environment where every command succeeds with empty output. -/
def env_c5 : Env :=
  { exec := fun _ => ExecOutcome.completed 0 "" ""
    spawn := fun _ => SpawnOutcome.waited 0
    timestamp := "20240101-000000" }

/-- Environment with one stopped container 101. -/
def env_c6 : Env :=
  { exec := fun c =>
      if c = "pct list" then ExecOutcome.completed 0 "101 stopped dev-box" ""
      else if c = status_cmd "101" then ExecOutcome.completed 0 "status: stopped" ""
      else ExecOutcome.completed 1 "" ""
    spawn := fun _ => SpawnOutcome.waited 0
    timestamp := "20240101-000000" }

/-- Environment where container 101 reports status stopped. -/
def env_c8 : Env :=
  { exec := fun c =>
      if c = status_cmd "101" then ExecOutcome.completed 0 "status: stopped" ""
      else ExecOutcome.completed 1 "" ""
    spawn := fun _ => SpawnOutcome.waited 0
    timestamp := "20240101-000000" }

/-- Environment listing the template container 9000 alongside container
101. -/
def env_c9 : Env :=
  { exec := fun c =>
      if c = "pct list" then
        ExecOutcome.completed 0 "9000 stopped template\n101 running box" ""
      else if c = ip_cmd "101" then ExecOutcome.completed 0 "10.0.0.5\n" ""
      else ExecOutcome.completed 1 "" ""
    spawn := fun _ => SpawnOutcome.waited 0
    timestamp := "20240101-000000" }

/-- Environment where spawning the backup command raises an exception. -/
def env_c10 : Env :=
  { exec := fun _ => ExecOutcome.completed 0 "" ""
    spawn := fun _ => SpawnOutcome.raisedS "boom"
    timestamp := "20240101-000000" }

/-- Environment where the backup command exits with code 3. -/
def env_c10w : Env :=
  { exec := fun _ => ExecOutcome.completed 0 "" ""
    spawn := fun _ => SpawnOutcome.waited 3
    timestamp := "20240101-000000" }

/-! ### Claim theorems -/

/-- Claim C1 (code bug): the list operation does not produce the
documented object shape.  At a concrete runtime listing, the CLI `list`
action exits 0 and prints a bare JSON array of container records with no
`success` or `containers` field; consequently field access `.get` on the
payload raises `AttributeError`, and the socket handler `handle_connect` of this
same repository, which expects the object shape, emits nothing. -/
theorem c1_list_payload_is_bare_array :
    main env_c1 ["devcontainer-manager.py", "list"]
      = (0, PyVal.list [PyVal.dict [("vmid", PyVal.str "101"), ("name", PyVal.str "web-app"),
          ("status", PyVal.str "running"), ("ip", PyVal.str "192.168.10.75")]]) ∧
    dict_get (main env_c1 ["devcontainer-manager.py", "list"]).2 "containers"
      = Except.error "AttributeError" ∧
    handle_connect (main env_c1 ["devcontainer-manager.py", "list"]).2 = [] :=
  ⟨rfl, rfl, rfl⟩

/-- Claim C2 counterexample: a payload carrying an empty snapshot under
the `containers` key produces no event on connect, contradicting the
claim that exactly one full-refresh event is always sent, even when the
snapshot is empty. -/
theorem c2_counterexample_empty_snapshot_not_sent :
    handle_connect (PyVal.dict [("success", PyVal.bool true),
      ("containers", PyVal.list [])]) = [] := rfl

/-- Claim C2 (amended): connecting produces at most one
`containers_update` event, and one is emitted exactly when the list
payload is a dict whose `containers` field is truthy (in particular,
non-empty): a truthy `containers` field always yields exactly the one
update event carrying it, while an empty snapshot, an error payload, or
a non-dict payload produces no event. -/
theorem c2_connect_exactly_when_truthy (p : PyVal) :
    (∀ c, dict_get p "containers" = Except.ok c → pyTruthy c = true →
       handle_connect p = [Event.containers_update c]) ∧
    (∀ c, dict_get p "containers" = Except.ok c → pyTruthy c = false →
       handle_connect p = []) ∧
    (∀ m, dict_get p "containers" = Except.error m → handle_connect p = []) := by
  refine ⟨?_, ?_, ?_⟩
  · intro c h ht
    simp [handle_connect, h, ht]
  · intro c h ht
    simp [handle_connect, h, ht]
  · intro m h
    simp [handle_connect, h]

/-- Witness for C2 at concrete inputs: a payload with a non-empty
containers field produces exactly the one update event; a payload
without a truthy containers field (here the error object of a failed
list call) produces none. -/
theorem c2_witness :
    handle_connect (PyVal.dict [("success", PyVal.bool true),
        ("containers", PyVal.list [PyVal.str "x"])])
      = [Event.containers_update (PyVal.list [PyVal.str "x"])] ∧
    handle_connect (PyVal.dict [("success", PyVal.bool false),
        ("error", PyVal.str "e")]) = [] :=
  ⟨(c2_connect_exactly_when_truthy (PyVal.dict [("success", PyVal.bool true),
      ("containers", PyVal.list [PyVal.str "x"])])).1
      (PyVal.list [PyVal.str "x"]) rfl rfl,
   (c2_connect_exactly_when_truthy (PyVal.dict [("success", PyVal.bool false),
      ("error", PyVal.str "e")])).2.1 PyVal.none rfl rfl⟩

/-- Claim C3 counterexample: the timeout outcome and a completed
execution that exits with code -1 and stderr "Command timed out" are
distinct runtime events, yet `run_command` maps them to the identical
result triple, so the timeout failure is not distinguishable from an
execution failure. -/
theorem c3_counterexample_timeout_not_distinguishable :
    run_command_capture ExecOutcome.timedOut
        = run_command_capture (ExecOutcome.completed (-1) "" "Command timed out") ∧
    ExecOutcome.timedOut ≠ ExecOutcome.completed (-1) "" "Command timed out" :=
  ⟨rfl, by decide⟩

/-- Claim C3 (amended): the captured runtime calls (the default
`run_command` path and the web gateway) pass a hard timeout of 30 time
units, and exceeding it yields the fixed triple
`(-1, "", "Command timed out")`; the uncaptured path used by the backup
operation passes no timeout at all — `Popen` plus `wait()` returns
whatever exit code the process eventually produces, unmodified, with no
timeout conversion — so that call is not bounded; and there is no
separately typed Timeout, ExecutionFailed or ParseFailed failure. -/
theorem c3_timeout_scope (env : Env) (cmd : String) :
    run_command_timeout = 30 ∧ run_agent_command_timeout = 30 ∧
    run_command_capture ExecOutcome.timedOut = (-1, "", "Command timed out") ∧
    (∀ c : Int, env.spawn cmd = SpawnOutcome.waited c →
       run_command env cmd false = (c, "", "")) := by
  refine ⟨rfl, rfl, rfl, ?_⟩
  intro c hc
  rw [show run_command env cmd false = run_command_no_capture (env.spawn cmd) from rfl, hc]
  rfl

/-- Witness for C3 at a concrete input: an uncaptured backup invocation
whose process is awaited to exit code 7 returns that code untouched —
no timeout mechanism intervenes on this path. -/
theorem c3_witness :
    run_command env_c3 (backup_cmd "101") false = (7, "", "") :=
  (c3_timeout_scope env_c3 (backup_cmd "101")).2.2.2 7 rfl

/-- Claim C4 counterexample: a runtime listing whose single record is
partial (no name field) makes the list operation return the empty list,
and the CLI exits 0 printing an empty JSON array: the partial output is
silently treated as a successful empty listing, and no ParseFailed error
exists. -/
theorem c4_counterexample_partial_silently_success :
    list_containers env_c4 = [] ∧
    main env_c4 ["devcontainer-manager.py", "list"] = (0, PyVal.list []) :=
  ⟨rfl, rfl⟩

/-- Claim C4 (amended): a listing line with fewer than three whitespace
fields is silently skipped (never an error, never a crash), and a failed
listing command yields the empty list; the empty or partial result is
returned as an ordinary success-shaped list because the function has no
error channel at all. -/
theorem c4_partial_skipped_no_error (env : Env) (line : String) :
    ((pySplitWs line).length < 3 → parse_list_line env line = Option.none) ∧
    ((run_command_env env "pct list").1 ≠ 0 → list_containers env = []) := by
  constructor
  · intro h
    unfold parse_list_line
    split
    · rw [if_neg (by omega)]
    · rfl
  · intro h
    unfold list_containers
    rw [if_pos h]

/-- Witness for C4 at concrete inputs: the partial line "101 running" is
skipped, and a failed `pct list` yields the empty list. -/
theorem c4_witness :
    parse_list_line env_c4 "101 running" = Option.none ∧ list_containers env_c4f = [] :=
  ⟨(c4_partial_skipped_no_error env_c4 "101 running").1 (by decide),
   (c4_partial_skipped_no_error env_c4f "").2 (by decide)⟩

/-- Claim C5 counterexample: the malformed invocation `create` with no
project name prints a JSON usage-error object but exits with code 0, not
a non-zero usage-error code. -/
theorem c5_counterexample_missing_args_exit_zero :
    main env_c5 ["devcontainer-manager.py", "create"]
      = (0, PyVal.dict [("error",
          PyVal.str "Usage: create <project_name> [vmid] [template_type]")]) := rfl

/-- Claim C5 (amended): a missing action exits with code 1 and the JSON
usage payload; every invocation that supplies an action exits with code
0, including malformed ones; an unknown action surfaces a JSON error
object naming the action.  Failures are always surfaced as JSON values,
never as an uncaught exception. -/
theorem c5_exit_codes (env : Env) (argv : List String) :
    (argv.length < 2 → main env argv = (1, usage_payload)) ∧
    (2 ≤ argv.length → (main env argv).1 = 0) ∧
    (∀ a, argv.getD 1 "" = a →
       a ∉ (["list", "create", "info", "configure-opencode", "setup-template",
             "monitor", "backup"] : List String) →
       2 ≤ argv.length →
       pyLookup (main env argv).2 "error"
         = Option.some (PyVal.str ("Unknown action: " ++ a))) := by
  refine ⟨?_, ?_, ?_⟩
  · intro h
    unfold main
    rw [if_pos h]
  · intro h
    unfold main
    rw [if_neg (by omega)]
  · intro a ha hmem hlen
    unfold main
    rw [if_neg (by omega), ha]
    simp only [List.mem_cons, List.not_mem_nil, or_false, not_or] at hmem
    obtain ⟨h1, h2, h3, h4, h5, h6, h7⟩ := hmem
    unfold dispatch
    rw [if_neg h1, if_neg h2, if_neg h3, if_neg h4, if_neg h5, if_neg h6, if_neg h7]
    rfl

/-- Witness for C5 at concrete inputs: empty argv exits 1, the `list`
action exits 0, and an unknown action yields the JSON error object. -/
theorem c5_witness :
    main env_c5 [] = (1, usage_payload) ∧
    (main env_c5 ["devcontainer-manager.py", "list"]).1 = 0 ∧
    pyLookup (main env_c5 ["devcontainer-manager.py", "frobnicate"]).2 "error"
      = Option.some (PyVal.str ("Unknown action: " ++ "frobnicate")) :=
  ⟨(c5_exit_codes env_c5 []).1 (by decide),
   (c5_exit_codes env_c5 ["devcontainer-manager.py", "list"]).2.1 (by decide),
   (c5_exit_codes env_c5 ["devcontainer-manager.py", "frobnicate"]).2.2
     "frobnicate" rfl (by decide) (by decide)⟩

/-- Claim C6 (confirmed): in both the list and info operations the
address lookup command is consulted exactly for records whose status is
"running" (the IP field then equals the stripped lookup output), while a
record with any other status carries the empty address and is still
produced as an ordinary result, not an error. -/
theorem c6_ip_only_when_running (env : Env) (vmid : String) (r : Record) (v : PyVal)
    (st : String) :
    (r ∈ list_containers env →
       (r.status = "running" → r.ip = pyStrip (run_command_env env (ip_cmd r.vmid)).2.1) ∧
       (r.status ≠ "running" → r.ip = "")) ∧
    (get_container_info env vmid = Except.ok v →
       pyLookup v "status" = Option.some (PyVal.str st) →
       (st = "running" →
          pyLookup v "ip"
            = Option.some (PyVal.str (pyStrip (run_command_env env (ip_cmd vmid)).2.1))) ∧
       (st ≠ "running" → pyLookup v "ip" = Option.some (PyVal.str ""))) := by
  constructor
  · intro hmem
    unfold list_containers at hmem
    by_cases hc : (run_command_env env "pct list").1 ≠ 0
    · rw [if_pos hc] at hmem
      exact absurd hmem (List.not_mem_nil r)
    · rw [if_neg hc] at hmem
      rw [List.mem_filterMap] at hmem
      obtain ⟨line, _, hp⟩ := hmem
      unfold parse_list_line at hp
      split at hp
      · split at hp
        · split at hp
          · exact Option.noConfusion hp
          · injection hp with hp2
            subst hp2
            constructor
            · intro hst
              simp only [container_ip]
              rw [if_pos hst]
            · intro hst
              simp only [container_ip]
              rw [if_neg hst]
        · exact Option.noConfusion hp
      · exact Option.noConfusion hp
  · intro hok hst
    unfold get_container_info at hok
    cases hps : parse_status (run_command_env env (status_cmd vmid)).2.1 with
    | error m => rw [hps] at hok; exact Except.noConfusion hok
    | ok status =>
      rw [hps] at hok
      injection hok with hok2
      subst hok2
      have hstatus : status = st := by
        have h2 : Option.some (PyVal.str status) = Option.some (PyVal.str st) := hst
        injection h2 with h3
        injection h3
      constructor
      · intro hrun
        show Option.some (PyVal.str (container_ip env status vmid)) = _
        rw [container_ip, if_pos (hstatus.trans hrun)]
      · intro hrun
        show Option.some (PyVal.str (container_ip env status vmid)) = _
        rw [container_ip, if_neg (fun hcon => hrun (hstatus.symm.trans hcon))]

/-- Witness for C6 at a concrete stopped container: the listed record and
the info payload both carry the empty address. -/
theorem c6_witness :
    ({ vmid := "101", name := "dev-box", status := "stopped", ip := "" } : Record).ip = "" ∧
    pyLookup (PyVal.dict [("vmid", PyVal.str "101"), ("status", PyVal.str "stopped"),
        ("ip", PyVal.str ""), ("config", PyVal.str ""), ("resources", PyVal.dict [])]) "ip"
      = Option.some (PyVal.str "") :=
  ⟨((c6_ip_only_when_running env_c6 "101"
      { vmid := "101", name := "dev-box", status := "stopped", ip := "" }
      (PyVal.dict []) "stopped").1 (by decide)).2 (by decide),
   ((c6_ip_only_when_running env_c6 "101"
      { vmid := "101", name := "dev-box", status := "stopped", ip := "" }
      (PyVal.dict [("vmid", PyVal.str "101"), ("status", PyVal.str "stopped"),
        ("ip", PyVal.str ""), ("config", PyVal.str ""), ("resources", PyVal.dict [])])
      "stopped").2 rfl rfl).2 (by decide)⟩

/-- Claim C7 counterexample: when the out-of-band list call fails, its
result is the error object, whose `containers` field is absent; the
refresh handler then emits no event at all to the requesting subscriber,
contradicting the claim that every refresh outcome produces a
user-visible notification. -/
theorem c7_counterexample_failed_list_no_notification :
    handle_refresh_containers (PyVal.dict [("success", PyVal.bool false),
      ("error", PyVal.str "pct list failed")]) = [] := rfl

/-- Claim C7 (amended): a client refresh request performs an out-of-band
list call and emits only to the requesting subscriber; the full refresh
followed by a success notification is sent exactly when the result is a
dict with a truthy `containers` field, while the error object produced by
a failed manager invocation yields no event at all (no failure
notification); only a raised exception emits an error event. -/
theorem c7_refresh_events (parseJson : String → Except String PyVal) (c : Int)
    (out err : String) (p cv : PyVal) :
    (c ≠ 0 →
       handle_refresh_containers
         (run_agent_command parseJson (ProcResult.completed c out err)) = []) ∧
    (dict_get p "containers" = Except.ok cv → pyTruthy cv = true →
       handle_refresh_containers p
         = [Event.containers_update cv,
            Event.notification "Container list refreshed" "success"]) := by
  constructor
  · intro hc
    simp [run_agent_command, hc, handle_refresh_containers, dict_get, List.lookup, pyTruthy]
  · intro h ht
    simp [handle_refresh_containers, h, ht]

/-- Witness for C7 at concrete inputs: a failed manager run produces no
events; a payload with a non-empty containers field produces the update
and the success notification. -/
theorem c7_witness :
    handle_refresh_containers (run_agent_command (fun _ => Except.error "unused")
        (ProcResult.completed 2 "" "boom")) = [] ∧
    handle_refresh_containers (PyVal.dict [("containers", PyVal.list [PyVal.str "r"])])
      = [Event.containers_update (PyVal.list [PyVal.str "r"]),
         Event.notification "Container list refreshed" "success"] :=
  ⟨(c7_refresh_events (fun _ => Except.error "unused") 2 "" "boom"
      (PyVal.dict []) PyVal.none).1 (by decide),
   (c7_refresh_events (fun _ => Except.error "unused") 2 "" "boom"
      (PyVal.dict [("containers", PyVal.list [PyVal.str "r"])])
      (PyVal.list [PyVal.str "r"])).2 rfl rfl⟩

/-- Claim C8 counterexample: for a stopped container the monitor payload
is `{status: "stopped", message: "Container not running"}`: its status
field holds the actual status string, not the literal "not running" the
claim requires. -/
theorem c8_counterexample_status_is_actual :
    monitor_resources env_c8 "101"
      = Except.ok (PyVal.dict [("status", PyVal.str "stopped"),
          ("message", PyVal.str "Container not running")]) ∧
    ("stopped" : String) ≠ "not running" :=
  ⟨rfl, by decide⟩

/-- Claim C8 (amended): a monitor request on a container whose parsed
status is not "running" returns `{status: <actual status>, message:
"Container not running"}` with no resource report, and a running
container returns the resource report. -/
theorem c8_monitor_shapes (env : Env) (vmid st : String)
    (h : parse_status (run_command_env env (status_cmd vmid)).2.1 = Except.ok st) :
    (st ≠ "running" → monitor_resources env vmid
       = Except.ok (PyVal.dict [("status", PyVal.str st),
           ("message", PyVal.str "Container not running")])) ∧
    (st = "running" → ∃ c m d, monitor_resources env vmid
       = Except.ok (PyVal.dict [("status", PyVal.str st), ("cpu_usage", PyVal.str c),
           ("memory_info", PyVal.str m), ("disk_info", PyVal.str d)])) := by
  constructor
  · intro hne
    simp only [monitor_resources, h]
    rw [if_pos hne]
  · intro he
    simp only [monitor_resources, h]
    rw [if_neg (fun hn => hn he)]
    exact ⟨_, _, _, rfl⟩

/-- Witness for C8 at a concrete stopped container. -/
theorem c8_witness :
    monitor_resources env_c8 "101"
      = Except.ok (PyVal.dict [("status", PyVal.str "stopped"),
          ("message", PyVal.str "Container not running")]) :=
  (c8_monitor_shapes env_c8 "101" "stopped" rfl).1 (by decide)

/-- Claim C9 (confirmed): no record produced by the list operation ever
carries the template VMID "9000"; the template container is always
filtered out of the snapshot. -/
theorem c9_template_never_listed (env : Env) (r : Record)
    (h : r ∈ list_containers env) : r.vmid ≠ "9000" := by
  unfold list_containers at h
  by_cases hc : (run_command_env env "pct list").1 ≠ 0
  · rw [if_pos hc] at h
    exact absurd h (List.not_mem_nil r)
  · rw [if_neg hc] at h
    rw [List.mem_filterMap] at h
    obtain ⟨line, _, hp⟩ := h
    unfold parse_list_line at hp
    split at hp
    · split at hp
      · split at hp
        · exact Option.noConfusion hp
        · rename_i hne
          injection hp with hp2
          subst hp2
          simpa [template_id] using hne
      · exact Option.noConfusion hp
    · exact Option.noConfusion hp

/-- Witness for C9: in an environment whose listing contains the template
9000 and container 101, record 101 is listed and its VMID differs from
9000. -/
theorem c9_witness :
    ({ vmid := "101", name := "box", status := "running", ip := "10.0.0.5" } : Record)
        ∈ list_containers env_c9 ∧
    ({ vmid := "101", name := "box", status := "running", ip := "10.0.0.5" } : Record).vmid
        ≠ "9000" :=
  ⟨by decide, c9_template_never_listed env_c9 _ (by decide)⟩

/-- Claim C10 counterexample: when spawning the backup command raises an
exception (caught by `run_command`), the backup result carries the
exception message in its error field, which is neither `None` nor the
empty string. -/
theorem c10_counterexample_error_not_empty :
    pyLookup (backup_container env_c10 "101") "error" = Option.some (PyVal.str "boom") ∧
    ("boom" : String) ≠ "" :=
  ⟨rfl, by decide⟩

/-- Claim C10 (amended): the backup result error field is `None` when the
backup command exits 0 and the empty string when it exits non-zero — the
command runs without output capture, so the external tool stderr is never
included and a failed backup carries no tool diagnostic; only when
spawning the process raises an exception does the error field carry the
exception message. -/
theorem c10_backup_error_field (env : Env) (vmid : String) :
    (∀ c : Int, env.spawn (backup_cmd vmid) = SpawnOutcome.waited c →
       pyLookup (backup_container env vmid) "error"
         = Option.some (if c = 0 then PyVal.none else PyVal.str "")) ∧
    (∀ m, env.spawn (backup_cmd vmid) = SpawnOutcome.raisedS m →
       pyLookup (backup_container env vmid) "error" = Option.some (PyVal.str m)) := by
  constructor
  · intro c hc
    by_cases h0 : c = 0
    · simp [backup_container, run_command, run_command_no_capture, hc, h0, pyLookup,
        List.lookup]
    · simp [backup_container, run_command, run_command_no_capture, hc, h0, pyLookup,
        List.lookup]
  · intro m hm
    simp [backup_container, run_command, run_command_no_capture, hm, pyLookup, List.lookup]

/-- Witness for C10 at concrete inputs: a non-zero exit yields the empty
error string; a raised spawn yields the exception message. -/
theorem c10_witness :
    pyLookup (backup_container env_c10w "101") "error" = Option.some (PyVal.str "") ∧
    pyLookup (backup_container env_c10 "101") "error" = Option.some (PyVal.str "boom") :=
  ⟨by simpa using (c10_backup_error_field env_c10w "101").1 3 rfl,
   (c10_backup_error_field env_c10 "101").2 "boom" rfl⟩

end LxcDev
